import Mathlib

/-!
Shallow embedding of the FTK-API-SDK filter builder, paginated iterator,
job polling state machine and collection aggregation, with theorems
checking the specification's claims against the embedded code.

Sources embedded (paths relative to the repository root):
  * `accessdata/api/filters.py` — string/number filter generation, AND/OR.
  * `exterro/api/attributes.py` — `Attribute` comparison operators and the
    data-type driven generation map.
  * `exterro/api/evidence.py` — `_iterate`, `_search_keywords`,
    `EvidenceObject.browse/iterate/search_keywords/export_natives`.
  * `exterro/api/jobs.py` — `JobState`, `Job.update` state mapping.
  * `exterro/api/collections.py` — `CollectionState`, `Task.__init__`,
    `Collection.__init__` aggregate state.
  * `accessdata/api/cases.py` / `labels.py` — the lazy `Case.labels`
    property that fetches the label list on first access.

Python dicts/JSON values are modelled by `JValue`; raised exceptions by
`Except String`; network traffic by explicit `NetEvent` traces.
-/

namespace FTK

/-- JSON-like values: the wire format produced and consumed by the SDK.
Python dicts are association lists (insertion ordered, like the dict
literals in the source). -/
inductive JValue where
  | str (s : String)
  | num (n : Int)
  | bool (b : Bool)
  | arr (elems : List JValue)
  | obj (fields : List (String × JValue))

/-- Python truthiness of a JSON value (`if filter:` in the source):
empty dict/list/string and zero are falsy. -/
def jsonTruthy : JValue → Bool
  | .str s => !s.isEmpty
  | .num n => n != 0
  | .bool b => b
  | .arr elems => !elems.isEmpty
  | .obj fields => !fields.isEmpty

/-- First-match association lookup, the behaviour of `dict.__getitem__` /
`dict.get` on the modelled (duplicate-free in practice) dicts. -/
def assocLookup (fields : List (String × JValue)) (key : String) : Option JValue :=
  match fields with
  | [] => none
  | (k, v) :: rest => if k = key then some v else assocLookup rest key

/-- `dict.__getitem__`: raises `KeyError` when the key is absent. -/
def dictGetItem (fields : List (String × JValue)) (key : String) : Except String JValue :=
  match assocLookup fields key with
  | some v => Except.ok v
  | none => Except.error "KeyError"

/-! ## accessdata/api/filters.py -/

/-- `StringOperator` (filters.py lines 24-29). -/
inductive StringOperator where
  | EqualTo | NotEqualTo | Contains | StartsWith | EndsWith
  deriving DecidableEq

/-- The `IntEnum` value of each `StringOperator` member. -/
def StringOperator.value : StringOperator → Int
  | .EqualTo => 0
  | .NotEqualTo => 1
  | .Contains => 2
  | .StartsWith => 3
  | .EndsWith => 4

/-- `NumberOperator` (filters.py lines 43-52). -/
inductive NumberOperator where
  | GreaterThan | GreaterThanEqualTo | LessThan | LessThanEqualTo
  | EqualTo | NotEqualTo | Includes | Excludes
  deriving DecidableEq

/-- The `IntEnum` value of each `NumberOperator` member. -/
def NumberOperator.value : NumberOperator → Int
  | .GreaterThan => 0
  | .GreaterThanEqualTo => 1
  | .LessThan => 2
  | .LessThanEqualTo => 3
  | .EqualTo => 4
  | .NotEqualTo => 5
  | .Includes => 6
  | .Excludes => 7

/-- `$type` tag of string-column filters (filters.py lines 34-35). -/
def stringColumnFilterType : String :=
  "ADG.Service.Interfaces.DataContracts.Filtering.Grid.StringColumnFilter, ADG.Service.Interfaces"

/-- `$type` tag of set-membership (grid column) filters (filters.py lines 58-59). -/
def gridColumnFilterType : String :=
  "ADG.Service.Interfaces.DataContracts.Filtering.Grid.GridColumnFilter, ADG.Service.Interfaces"

/-- `$type` tag of comparison filters (filters.py lines 66-67). -/
def gridColumnComparisonFilterType : String :=
  "ADG.Service.Interfaces.DataContracts.Filtering.Grid.GridColumnComparisonFilter, ADG.Service.Interfaces"

/-- `$type` tag of AND/OR combinator filters (filters.py lines 77-78). -/
def binaryOperatorFilterType : String :=
  "ADG.Service.Interfaces.DataContracts.Filtering.BinaryOperatorFilter, ADG.Service.Interfaces"

/-- `generate_string_filter` (filters.py lines 31-39). -/
def generate_string_filter (attributeName : String) (operation : StringOperator)
    (value : JValue) : JValue :=
  .obj [("$type", .str stringColumnFilterType),
        ("staticAttributeName", .str attributeName),
        ("operator", .num operation.value),
        ("operand", value)]

/-- `generate_number_filter` (filters.py lines 54-71): `Includes`/`Excludes`
produce the set-membership shape (`mode` = value - 6, `values`), every
other operator the comparison shape (`operator`, `value`). -/
def generate_number_filter (attributeName : String) (operation : NumberOperator)
    (value : JValue) : JValue :=
  if operation = NumberOperator.Includes ∨ operation = NumberOperator.Excludes then
    .obj [("$type", .str gridColumnFilterType),
          ("staticAttributeName", .str attributeName),
          ("mode", .num (operation.value - 6)),
          ("values", value)]
  else
    .obj [("$type", .str gridColumnComparisonFilterType),
          ("staticAttributeName", .str attributeName),
          ("operator", .num operation.value),
          ("value", value)]

/-- `and_` (filters.py lines 75-82). -/
def and_ (filter1 filter2 : JValue) : JValue :=
  .obj [("$type", .str binaryOperatorFilterType),
        ("operator", .str "AND"),
        ("left", filter1),
        ("right", filter2)]

/-- `or_` (filters.py lines 84-91). -/
def or_ (filter1 filter2 : JValue) : JValue :=
  .obj [("$type", .str binaryOperatorFilterType),
        ("operator", .str "OR"),
        ("left", filter1),
        ("right", filter2)]

/-! ## exterro/api/attributes.py -/

namespace AttributeType

/-- `AttributeType.INT32` (attributes.py line 31). -/
def INT32 : Int := 7

/-- `AttributeType.INT64` (attributes.py line 32). -/
def INT64 : Int := 9

/-- `AttributeType.STRING` (attributes.py line 33). -/
def STRING : Int := 11

end AttributeType

/-- An `Attribute` row: the fields of the backing dict that the comparator
code reads (`attributeUniqueName` via the `name` property, `dataType` as the
generation-map key). `dataType` stays an unconstrained integer because the
dict holds whatever the service returned. -/
structure Attribute where
  attributeUniqueName : String
  dataType : Int
  deriving DecidableEq

/-- Which `(filter_func, op_enum)` pair a generation-map entry denotes:
`(generate_number_filter, NumberOperator)` or
`(generate_string_filter, StringOperator)`. -/
inductive FilterGen where
  | numberGen | stringGen
  deriving DecidableEq

/-- `Attribute.__generation_map.get(dataType, default)` (attributes.py
lines 45-51): INT32/INT64 map to the number pair, STRING to the string
pair; both `__generation_default_string` and `__generation_default_int`
are the string pair, so every other tag falls back to it. -/
def generationMapGet (dataType : Int) : FilterGen :=
  if dataType = AttributeType.INT32 then .numberGen
  else if dataType = AttributeType.INT64 then .numberGen
  else if dataType = AttributeType.STRING then .stringGen
  else .stringGen

/-- The python attribute names looked up on the operator enums by the
comparator methods (`op_enum.EqualTo`, `op_enum.Includes`, ...). -/
inductive OperatorName where
  | EqualTo | NotEqualTo | LessThan | GreaterThan | LessThanEqualTo
  | GreaterThanEqualTo | Contains | StartsWith | EndsWith | Includes | Excludes
  deriving DecidableEq

/-- Member lookup on `StringOperator`: the enum defines only the five
substring/equality members, so every other access raises `AttributeError`
(modelled as `none`). -/
def stringOperatorMember : OperatorName → Option StringOperator
  | .EqualTo => some .EqualTo
  | .NotEqualTo => some .NotEqualTo
  | .Contains => some .Contains
  | .StartsWith => some .StartsWith
  | .EndsWith => some .EndsWith
  | _ => none

/-- Member lookup on `NumberOperator`: all comparison and membership
members exist; the substring names do not. -/
def numberOperatorMember : OperatorName → Option NumberOperator
  | .EqualTo => some .EqualTo
  | .NotEqualTo => some .NotEqualTo
  | .LessThan => some .LessThan
  | .GreaterThan => some .GreaterThan
  | .LessThanEqualTo => some .LessThanEqualTo
  | .GreaterThanEqualTo => some .GreaterThanEqualTo
  | .Includes => some .Includes
  | .Excludes => some .Excludes
  | _ => none

/-- `filter_func(self.name, op_enum.<op>, other)` after the generation-map
lookup: resolves the operator member on the selected enum (raising
`AttributeError` when the enum lacks it) and applies the selected
generator. -/
def applyGen (g : FilterGen) (attrName : String) (op : OperatorName)
    (value : JValue) : Except String JValue :=
  match g with
  | .numberGen =>
    match numberOperatorMember op with
    | some nop => Except.ok (generate_number_filter attrName nop value)
    | none => Except.error "AttributeError"
  | .stringGen =>
    match stringOperatorMember op with
    | some sop => Except.ok (generate_string_filter attrName sop value)
    | none => Except.error "AttributeError"

/-- `Attribute.__eq__` (attributes.py lines 72-79): no type guard. -/
def Attribute.eqFilter (self : Attribute) (other : JValue) : Except String JValue :=
  applyGen (generationMapGet self.dataType) self.attributeUniqueName .EqualTo other

/-- `Attribute.__ne__` (attributes.py lines 81-88): no type guard. -/
def Attribute.neFilter (self : Attribute) (other : JValue) : Except String JValue :=
  applyGen (generationMapGet self.dataType) self.attributeUniqueName .NotEqualTo other

/-- `Attribute.__lt__` (attributes.py lines 90-99): guards against STRING. -/
def Attribute.ltFilter (self : Attribute) (other : JValue) : Except String JValue :=
  if self.dataType = AttributeType.STRING then
    Except.error "TypeError: Cannot use __lt__ comparator on String attribute."
  else applyGen (generationMapGet self.dataType) self.attributeUniqueName .LessThan other

/-- `Attribute.__gt__` (attributes.py lines 101-110): guards against STRING. -/
def Attribute.gtFilter (self : Attribute) (other : JValue) : Except String JValue :=
  if self.dataType = AttributeType.STRING then
    Except.error "TypeError: Cannot use __gt__ comparator on String attribute."
  else applyGen (generationMapGet self.dataType) self.attributeUniqueName .GreaterThan other

/-- `Attribute.__le__` (attributes.py lines 112-122): guards against STRING. -/
def Attribute.leFilter (self : Attribute) (other : JValue) : Except String JValue :=
  if self.dataType = AttributeType.STRING then
    Except.error "TypeError: Cannot use __le__ comparator on String attribute."
  else applyGen (generationMapGet self.dataType) self.attributeUniqueName .LessThanEqualTo other

/-- `Attribute.__ge__` (attributes.py lines 124-134): guards against STRING. -/
def Attribute.geFilter (self : Attribute) (other : JValue) : Except String JValue :=
  if self.dataType = AttributeType.STRING then
    Except.error "TypeError: Cannot use __ge__ comparator on String attribute."
  else applyGen (generationMapGet self.dataType) self.attributeUniqueName .GreaterThanEqualTo other

/-- `Attribute.__contains__` (attributes.py lines 136-146): guards against
INT32/INT64. -/
def Attribute.containsFilter (self : Attribute) (other : JValue) : Except String JValue :=
  if self.dataType = AttributeType.INT32 ∨ self.dataType = AttributeType.INT64 then
    Except.error "TypeError: Cannot use __contains__ comparator on Int attribute."
  else applyGen (generationMapGet self.dataType) self.attributeUniqueName .Contains other

/-- `Attribute.within` (attributes.py lines 148-155): no type guard; resolves
`op_enum.Includes` on the enum selected by the data type. -/
def Attribute.within (self : Attribute) (other : JValue) : Except String JValue :=
  applyGen (generationMapGet self.dataType) self.attributeUniqueName .Includes other

/-- `Attribute.startswith` (attributes.py lines 157-171): guards against
INT32/INT64. -/
def Attribute.startswith (self : Attribute) (other : JValue) : Except String JValue :=
  if self.dataType = AttributeType.INT32 ∨ self.dataType = AttributeType.INT64 then
    Except.error "TypeError: Cannot use startswith comparator on Int attribute."
  else applyGen (generationMapGet self.dataType) self.attributeUniqueName .StartsWith other

/-- `Attribute.endswith` (attributes.py lines 173-188): guards against
INT32/INT64. -/
def Attribute.endswith (self : Attribute) (other : JValue) : Except String JValue :=
  if self.dataType = AttributeType.INT32 ∨ self.dataType = AttributeType.INT64 then
    Except.error "TypeError: Cannot use endswith comparator on Int attribute."
  else applyGen (generationMapGet self.dataType) self.attributeUniqueName .EndsWith other

/-! ## exterro/api/jobs.py -/

/-- `JobState` (jobs.py lines 22-41). `Finished = 4` is an alias of
`Completed` in the python enum (the very same member), so the embedding
has a single constructor for it. -/
inductive JobState where
  | Submitted | InProgress | Cancelled | Failed | Completed | CompletedWithErrors
  deriving DecidableEq

/-- The `IntEnum` value of each `JobState` member (jobs.py lines 35-41). -/
def JobState.value : JobState → Int
  | .Submitted => 0
  | .InProgress => 1
  | .Cancelled => 2
  | .Failed => 3
  | .Completed => 4
  | .CompletedWithErrors => 6

/-- `JobState.__getattr__(name)` (used in `Job.update`, jobs.py line 73):
resolves a member by its python name; `Finished` resolves to the same
member as `Completed`; unknown names raise (modelled as `none`). -/
def JobState.fromName : String → Option JobState
  | "Submitted" => some .Submitted
  | "InProgress" => some .InProgress
  | "Cancelled" => some .Cancelled
  | "Failed" => some .Failed
  | "Completed" => some .Completed
  | "Finished" => some .Completed
  | "CompletedWithErrors" => some .CompletedWithErrors
  | _ => none

/-- The state set by `Job.update` (jobs.py lines 65-75) from a job-status
response: reads the `state` field and maps its string through
`JobState.__getattr__`; a missing field or unknown name raises (`none`). -/
def Job.updateState (response : List (String × JValue)) : Option JobState :=
  match assocLookup response "state" with
  | some (.str s) => JobState.fromName s
  | _ => none

/-- The non-terminal test used by the `_search_keywords` polling loop
(evidence.py line 457): `job.state in (JobState.Submitted, JobState.InProgress)`. -/
def JobState.nonTerminal : JobState → Bool
  | .Submitted => true
  | .InProgress => true
  | _ => false

/-! ## exterro/api/collections.py -/

/-- `CollectionState` (collections.py lines 23-31). `Finished = 3` is an
alias of `Completed` in the python enum, so it shares the constructor. -/
inductive CollectionState where
  | Unknown | Blocked | Failed | InProgress | Completed
  deriving DecidableEq

/-- The `IntEnum` value of each `CollectionState` member
(collections.py lines 26-31). -/
def CollectionState.value : CollectionState → Int
  | .Unknown => -1
  | .Blocked => 0
  | .Failed => 1
  | .InProgress => 2
  | .Completed => 3

/-- `CollectionState[name]` member lookup (collections.py line 37):
resolves a member by name, aliases included; unknown names raise
`KeyError` (modelled as `none`). -/
def CollectionState.fromName : String → Option CollectionState
  | "Unknown" => some .Unknown
  | "Blocked" => some .Blocked
  | "Failed" => some .Failed
  | "InProgress" => some .InProgress
  | "Completed" => some .Completed
  | "Finished" => some .Completed
  | _ => none

/-- `CollectionState[s]` as the raising operation inside the `try` block. -/
def collectionStateGetItem (s : String) : Except String CollectionState :=
  match CollectionState.fromName s with
  | some st => Except.ok st
  | none => Except.error "KeyError"

/-- The `state` field set by `Task.__init__` (collections.py lines 35-39):
`try: self.state = CollectionState[data["jobStatus"]] except: Unknown`.
Both the dict lookup and the enum lookup can raise; the bare `except`
catches everything and falls back to `Unknown`. A non-string `jobStatus`
value also raises `KeyError` inside the enum lookup. -/
def Task.initState (data : List (String × JValue)) : CollectionState :=
  match dictGetItem data "jobStatus" with
  | .error _ => CollectionState.Unknown
  | .ok v =>
    match v with
    | .str s =>
      match collectionStateGetItem s with
      | .ok st => st
      | .error _ => CollectionState.Unknown
    | _ => CollectionState.Unknown

/-- The python `min` step over `IntEnum` members: keep the accumulator
unless the next item is strictly smaller by enum value. -/
def collectionMinStep (acc x : CollectionState) : CollectionState :=
  if x.value < acc.value then x else acc

/-- `min(task.state for task in tasks)` in `Collection.__init__`
(collections.py line 57): `min` over the task states; raises on an empty
sequence (`none`), otherwise folds keeping the least-valued state. -/
def collectionStateOfTasks : List CollectionState → Option CollectionState
  | [] => none
  | s :: rest => some (rest.foldl collectionMinStep s)

/-! ## exterro/api/evidence.py — `_iterate` against a simulated server

The simulated object-page service holds a fixed dataset; page `k`
(1-based) of size `P` returns `entities = data[(k-1)*P : k*P]` and
`totalCount = len(data)`, the behaviour §6 of the spec documents for
`getobjectlist/{page}/{size}`. -/

/-- The `entities` list of the simulated response for one page request. -/
def pageEntities {α : Type} (data : List α) (pagesize pagenumber : Nat) : List α :=
  (data.drop ((pagenumber - 1) * pagesize)).take pagesize

/-- The `while pagenumber < total_pages` loop of `_iterate` (evidence.py
lines 403-416): each pass increments `pagenumber` and fetches that page.
`remaining` is `total_pages - pagenumber`, the number of passes left, so
the loop is embedded structurally. Returns the (page number, entities)
pairs fetched by the loop, in fetch order. -/
def iterLoopSim {α : Type} (data : List α) (pagesize : Nat) :
    (pagenumber remaining : Nat) → List (Nat × List α)
  | _, 0 => []
  | p, r + 1 =>
    (p + 1, pageEntities data pagesize (p + 1)) ::
      iterLoopSim data pagesize (p + 1) r

/-- `_iterate` (evidence.py lines 382-416) run against the simulated
server: fetch page 1, read `totalCount` (= `data.length`), compute
`total_pages = floor(totalCount / pagesize) + 1`, then fetch pages
`2..total_pages`. Returns every page fetch with its entities, in order. -/
def iterateSim {α : Type} (data : List α) (pagesize : Nat) : List (Nat × List α) :=
  let totalPages := data.length / pagesize + 1
  (1, pageEntities data pagesize 1) :: iterLoopSim data pagesize 1 (totalPages - 1)

/-- The page numbers `_iterate` fetches, in order. -/
def iterateSimRequests {α : Type} (data : List α) (pagesize : Nat) : List Nat :=
  (iterateSim data pagesize).map Prod.fst

/-- The objects `_iterate` yields, in order. -/
def iterateSimYields {α : Type} (data : List α) (pagesize : Nat) : List α :=
  ((iterateSim data pagesize).map Prod.snd).flatten

/-! ## exterro/api/evidence.py — evidence-scoped filters

`EvidenceObject.browse/iterate/search_keywords/export_natives`
(evidence.py lines 58-163) each look up the `EvidenceID` attribute with
`Attribute.by_name` and conjoin `evidence_id == self.get("evidenceId", 0)`
with any truthy caller filter. The catalog lookup's result is passed in
here as the `evidence_id` parameter. -/

/-- `self.get("evidenceId", 0)` on the evidence row. -/
def evidenceIdOf (row : List (String × JValue)) : JValue :=
  (assocLookup row "evidenceId").getD (JValue.num 0)

/-- The filter `EvidenceObject.browse` (evidence.py lines 78-83) passes to
`_browse`. -/
def EvidenceObject.browseFilter (row : List (String × JValue))
    (evidence_id : Attribute) (filter : JValue) : Except String JValue :=
  if jsonTruthy filter then
    (Attribute.eqFilter evidence_id (evidenceIdOf row)).map (fun ef => and_ filter ef)
  else
    Attribute.eqFilter evidence_id (evidenceIdOf row)

/-- The filter `EvidenceObject.iterate` (evidence.py lines 103-108) passes
to `_iterate`. -/
def EvidenceObject.iterateFilter (row : List (String × JValue))
    (evidence_id : Attribute) (filter : JValue) : Except String JValue :=
  if jsonTruthy filter then
    (Attribute.eqFilter evidence_id (evidenceIdOf row)).map (fun ef => and_ filter ef)
  else
    Attribute.eqFilter evidence_id (evidenceIdOf row)

/-- The filter `EvidenceObject.search_keywords` (evidence.py lines 133-138)
passes to `_search_keywords`. -/
def EvidenceObject.searchKeywordsFilter (row : List (String × JValue))
    (evidence_id : Attribute) (filter : JValue) : Except String JValue :=
  if jsonTruthy filter then
    (Attribute.eqFilter evidence_id (evidenceIdOf row)).map (fun ef => and_ filter ef)
  else
    Attribute.eqFilter evidence_id (evidenceIdOf row)

/-- The `uiFilter` `EvidenceObject.export_natives` (evidence.py lines
158-163) passes to `_export_natives`. -/
def EvidenceObject.exportNativesFilter (row : List (String × JValue))
    (evidence_id : Attribute) (filter : JValue) : Except String JValue :=
  if jsonTruthy filter then
    (Attribute.eqFilter evidence_id (evidenceIdOf row)).map (fun ef => and_ filter ef)
  else
    Attribute.eqFilter evidence_id (evidenceIdOf row)

/-! ## exterro/api/evidence.py — `_search_keywords` with a network trace -/

/-- The network requests `_search_keywords` can issue up to the point
where it delegates to `_iterate`. -/
inductive NetEvent where
  | labelListFetch
  | labelCreate (name : String)
  | searchSubmit
  | jobStatusFetch
  deriving DecidableEq

/-- `case.labels` (accessdata cases.py lines 93-101): on first access the
property constructs `Labels(self)`, whose `__init__` (labels.py lines
83-99) defaults to `update()`, sending one label-list request; later
accesses return the cached object with no traffic. -/
def caseLabelsAccess (labelsCacheLoaded : Bool) : List NetEvent :=
  if labelsCacheLoaded then [] else [NetEvent.labelListFetch]

/-- The `labels_len != len(keywords)` usage check guarded by `if labels:`
(evidence.py lines 423-426); an absent or empty labels list is falsy and
skips the check. -/
def labelsLengthMismatch (keywords : List String) (labels : Option (List String)) : Bool :=
  match labels with
  | some (l :: ls) => (l :: ls).length != keywords.length
  | _ => false

/-- The label names the search uses (evidence.py lines 423-428): the
caller's truthy list, else `"API-Search " + keyword` per keyword. -/
def searchLabels (keywords : List String) (labels : Option (List String)) : List String :=
  match labels with
  | some (l :: ls) => l :: ls
  | _ => keywords.map (fun x => "API-Search " ++ x)

/-- The label-id resolution loop (evidence.py lines 430-433): for each
label name, `first_matching_attribute("name", ...)` over the case labels
(a local scan), else `create` — one label-create request whose
server-assigned id is modelled by `newLabelId`; `create` also appends the
new label to the case list. Returns the events issued and the ids
collected, in order. -/
def resolveLabelIds (newLabelId : String → Int) :
    List (String × Int) → List String → List NetEvent × List Int
  | _, [] => ([], [])
  | caseLabels, l :: ls =>
    match caseLabels.find? (fun p => p.1 == l) with
    | some p =>
      let rest := resolveLabelIds newLabelId caseLabels ls
      (rest.1, p.2 :: rest.2)
    | none =>
      let id := newLabelId l
      let rest := resolveLabelIds newLabelId (caseLabels ++ [(l, id)]) ls
      (NetEvent.labelCreate l :: rest.1, id :: rest.2)

/-- The polling loop `while job.state in (JobState.Submitted,
JobState.InProgress): sleep(1); job.update()` (evidence.py lines 457-459),
driven by the scripted states successive `update` calls would observe.
Returns the job-status fetches the loop issues and the terminal state it
stops at; `none` when the script runs out while the state is still
non-terminal (the real loop would keep polling). The `sleep(1)` between
polls has no observable counterpart here. -/
def pollJob : JobState → List JobState → List NetEvent × Option JobState
  | s, [] => if s.nonTerminal then ([], none) else ([], some s)
  | s, s2 :: rest =>
    if s.nonTerminal then
      let p := pollJob s2 rest
      (NetEvent.jobStatusFetch :: p.1, p.2)
    else ([], some s)

/-- How `_search_keywords` ends, up to the delegation to `_iterate`. -/
inductive SearchOutcome where
  | pending
  | emptyResult
  | iterateWith (filter : JValue)

/-- `_search_keywords` (evidence.py lines 419-478) with its network trace:
access `case.labels`; check the keyword/label lengths (raising
`ValueError` on mismatch); resolve label ids; submit the search (one
request) and construct the `Job` (whose `__init__`, jobs.py line 63,
immediately issues one status fetch observing `jobInit`); poll until
terminal; return empty on `Failed`/`CompletedWithErrors`, else delegate to
`_iterate` with `labelid.within(labelids)`, conjoined as
`and_(labelfilter, filter)` when the caller's filter is truthy. The
`LabelID` catalog lookup (lines 463-466) is passed in as `labelidAttr`. -/
def searchKeywordsRun (cacheLoaded : Bool) (keywords : List String)
    (labels : Option (List String)) (filter : JValue)
    (caseLabels : List (String × Int)) (newLabelId : String → Int)
    (labelidAttr : Attribute) (jobInit : JobState) (jobUpdates : List JobState) :
    List NetEvent × Except String SearchOutcome :=
  let ev0 := caseLabelsAccess cacheLoaded
  if labelsLengthMismatch keywords labels then
    (ev0, Except.error "ValueError: Keywords and Labels list must be of same length.")
  else
    let resolved := resolveLabelIds newLabelId caseLabels (searchLabels keywords labels)
    let poll := pollJob jobInit jobUpdates
    let events := ev0 ++ resolved.1 ++ [NetEvent.searchSubmit, NetEvent.jobStatusFetch] ++ poll.1
    match poll.2 with
    | none => (events, Except.ok SearchOutcome.pending)
    | some t =>
      if t = JobState.Failed ∨ t = JobState.CompletedWithErrors then
        (events, Except.ok SearchOutcome.emptyResult)
      else
        match Attribute.within labelidAttr (JValue.arr (resolved.2.map JValue.num)) with
        | Except.error e => (events, Except.error e)
        | Except.ok lf =>
          if jsonTruthy filter then
            (events, Except.ok (SearchOutcome.iterateWith (and_ lf filter)))
          else
            (events, Except.ok (SearchOutcome.iterateWith lf))

/-! ## Helper lemmas -/

lemma collectionMinStep_value_le_left (a x : CollectionState) :
    (collectionMinStep a x).value ≤ a.value := by
  unfold collectionMinStep
  split <;> omega

lemma collectionMinStep_value_le_right (a x : CollectionState) :
    (collectionMinStep a x).value ≤ x.value := by
  unfold collectionMinStep
  split <;> omega

lemma collectionMinStep_cases (a x : CollectionState) :
    collectionMinStep a x = a ∨ collectionMinStep a x = x := by
  unfold collectionMinStep
  split
  · exact Or.inr rfl
  · exact Or.inl rfl

lemma foldl_collectionMinStep_mem (rest : List CollectionState) :
    ∀ s : CollectionState, rest.foldl collectionMinStep s ∈ s :: rest := by
  induction rest with
  | nil => intro s; simp
  | cons x xs ih =>
    intro s
    have h := ih (collectionMinStep s x)
    simp only [List.foldl_cons]
    rcases List.mem_cons.mp h with heq | hmem
    · rcases collectionMinStep_cases s x with hc | hc
      · rw [heq, hc]
        exact List.mem_cons_self _ _
      · rw [heq, hc]
        exact List.mem_cons_of_mem _ (List.mem_cons_self _ _)
    · exact List.mem_cons_of_mem _ (List.mem_cons_of_mem _ hmem)

lemma foldl_collectionMinStep_le (rest : List CollectionState) :
    ∀ s : CollectionState, ∀ x ∈ s :: rest,
      (rest.foldl collectionMinStep s).value ≤ x.value := by
  induction rest with
  | nil => intro s x hx; simp at hx; simp [hx]
  | cons y ys ih =>
    intro s x hx
    simp only [List.mem_cons] at hx
    have hstep := ih (collectionMinStep s y)
    simp only [List.foldl_cons]
    rcases hx with rfl | rfl | hx
    · exact le_trans (hstep _ (by simp)) (collectionMinStep_value_le_left x y)
    · exact le_trans (hstep _ (by simp)) (collectionMinStep_value_le_right s x)
    · exact hstep x (by simp [hx])

/-! ## Claim theorems -/

/-- C7: for each job-state string in a job-status response, `refresh`
(`Job.update`) sets the corresponding enumeration value, `Completed` and
`Finished` resolving to the same terminal member (value 4); the
terminal-state detection used by the polling loop classifies `Cancelled`,
`Failed`, `Completed`/`Finished` and `CompletedWithErrors` as terminal and
exactly `Submitted` and `InProgress` as non-terminal. -/
theorem job_state_mapping :
    Job.updateState [("state", JValue.str "Submitted")] = some JobState.Submitted ∧
    Job.updateState [("state", JValue.str "InProgress")] = some JobState.InProgress ∧
    Job.updateState [("state", JValue.str "Cancelled")] = some JobState.Cancelled ∧
    Job.updateState [("state", JValue.str "Failed")] = some JobState.Failed ∧
    Job.updateState [("state", JValue.str "Completed")] = some JobState.Completed ∧
    Job.updateState [("state", JValue.str "Finished")] = some JobState.Completed ∧
    Job.updateState [("state", JValue.str "CompletedWithErrors")] =
      some JobState.CompletedWithErrors ∧
    JobState.Completed.value = 4 ∧
    JobState.nonTerminal JobState.Submitted = true ∧
    JobState.nonTerminal JobState.InProgress = true ∧
    JobState.nonTerminal JobState.Cancelled = false ∧
    JobState.nonTerminal JobState.Failed = false ∧
    JobState.nonTerminal JobState.Completed = false ∧
    JobState.nonTerminal JobState.CompletedWithErrors = false := by
  repeat constructor

/-- C10: constructing a `Task` never raises on its state field: a missing
`jobStatus` key, a non-string value, or a string that is not a
`CollectionState` member name all yield `Unknown`; a member name yields
the named enumeration value. -/
theorem task_state_total (data : List (String × JValue)) :
    (dictGetItem data "jobStatus" = Except.error "KeyError" →
      Task.initState data = CollectionState.Unknown) ∧
    (∀ v, dictGetItem data "jobStatus" = Except.ok v →
      ((∀ s, v ≠ JValue.str s) → Task.initState data = CollectionState.Unknown) ∧
      (∀ s, v = JValue.str s →
        (CollectionState.fromName s = none →
          Task.initState data = CollectionState.Unknown) ∧
        (∀ st, CollectionState.fromName s = some st → Task.initState data = st))) := by
  constructor
  · intro h
    simp [Task.initState, h]
  · intro v hv
    constructor
    · intro hns
      cases v with
      | str s => exact absurd rfl (hns s)
      | num n => simp [Task.initState, hv]
      | bool b => simp [Task.initState, hv]
      | arr es => simp [Task.initState, hv]
      | obj fs => simp [Task.initState, hv]
    · rintro s rfl
      constructor
      · intro hn
        simp [Task.initState, hv, collectionStateGetItem, hn]
      · intro st hst
        simp [Task.initState, hv, collectionStateGetItem, hst]

/-- C10 witness: a present member name maps to the named value; an
unknown name maps to `Unknown`. -/
theorem task_state_total_witness :
    Task.initState [("jobStatus", JValue.str "Failed")] = CollectionState.Failed ∧
    Task.initState [("jobStatus", JValue.str "Bogus")] = CollectionState.Unknown := by
  constructor
  · exact (((task_state_total [("jobStatus", JValue.str "Failed")]).2
      (JValue.str "Failed") rfl).2 "Failed" rfl).2 CollectionState.Failed rfl
  · exact (((task_state_total [("jobStatus", JValue.str "Bogus")]).2
      (JValue.str "Bogus") rfl).2 "Bogus" rfl).1 rfl

/-- C8: the `Collection` aggregate state of a non-empty task group is the
minimum of its member states under the `CollectionState` value ordering
(`Unknown = -1`, `Blocked = 0`, `Failed = 1`, `InProgress = 2`,
`Completed = 3`): it is one of the member states and a lower bound of all
of them. -/
theorem collection_min_state (s : CollectionState) (rest : List CollectionState)
    (m : CollectionState) (hm : collectionStateOfTasks (s :: rest) = some m) :
    m ∈ s :: rest ∧ (∀ x ∈ s :: rest, m.value ≤ x.value) ∧
    CollectionState.Unknown.value = -1 ∧ CollectionState.Blocked.value = 0 ∧
    CollectionState.Failed.value = 1 ∧ CollectionState.InProgress.value = 2 ∧
    CollectionState.Completed.value = 3 := by
  have hm2 : rest.foldl collectionMinStep s = m := by
    simpa [collectionStateOfTasks] using hm
  refine ⟨hm2 ▸ foldl_collectionMinStep_mem rest s,
    fun x hx => hm2 ▸ foldl_collectionMinStep_le rest s x hx,
    rfl, rfl, rfl, rfl, rfl⟩

/-- C8 witness: for member states `{Completed, InProgress, Failed}` the
aggregate state is `Failed` (minimum of values `{3, 2, 1}` is `1`). -/
theorem collection_min_state_witness :
    collectionStateOfTasks
      [CollectionState.Completed, CollectionState.InProgress, CollectionState.Failed] =
      some CollectionState.Failed ∧
    CollectionState.Failed ∈
      [CollectionState.Completed, CollectionState.InProgress, CollectionState.Failed] :=
  ⟨rfl, (collection_min_state CollectionState.Completed
    [CollectionState.InProgress, CollectionState.Failed] CollectionState.Failed rfl).1⟩

/-- C3: substring operators (`__contains__`, `startswith`, `endswith`) on
an INT32- or INT64-tagged attribute raise `TypeError` without producing a
filter, and ordering operators (`__lt__`, `__le__`, `__gt__`, `__ge__`) on
a STRING-tagged attribute raise `TypeError` without producing a filter.
The embedded comparators are pure: no network request exists anywhere in
their source. -/
theorem attribute_type_guards (a : Attribute) (v : JValue) :
    (a.dataType = AttributeType.INT32 ∨ a.dataType = AttributeType.INT64 →
      Attribute.containsFilter a v =
        Except.error "TypeError: Cannot use __contains__ comparator on Int attribute." ∧
      Attribute.startswith a v =
        Except.error "TypeError: Cannot use startswith comparator on Int attribute." ∧
      Attribute.endswith a v =
        Except.error "TypeError: Cannot use endswith comparator on Int attribute.") ∧
    (a.dataType = AttributeType.STRING →
      Attribute.ltFilter a v =
        Except.error "TypeError: Cannot use __lt__ comparator on String attribute." ∧
      Attribute.leFilter a v =
        Except.error "TypeError: Cannot use __le__ comparator on String attribute." ∧
      Attribute.gtFilter a v =
        Except.error "TypeError: Cannot use __gt__ comparator on String attribute." ∧
      Attribute.geFilter a v =
        Except.error "TypeError: Cannot use __ge__ comparator on String attribute.") := by
  constructor
  · intro h
    refine ⟨?_, ?_, ?_⟩ <;>
      simp [Attribute.containsFilter, Attribute.startswith, Attribute.endswith, h]
  · intro h
    refine ⟨?_, ?_, ?_, ?_⟩ <;>
      simp [Attribute.ltFilter, Attribute.leFilter, Attribute.gtFilter,
        Attribute.geFilter, h]

/-- C3 witness: a concrete INT32 attribute rejects `__contains__` and a
concrete STRING attribute rejects `__lt__`. -/
theorem attribute_type_guards_witness :
    Attribute.containsFilter ⟨"ObjectID", 7⟩ (JValue.str "x") =
      Except.error "TypeError: Cannot use __contains__ comparator on Int attribute." ∧
    Attribute.ltFilter ⟨"ObjectName", 11⟩ (JValue.num 3) =
      Except.error "TypeError: Cannot use __lt__ comparator on String attribute." :=
  ⟨((attribute_type_guards ⟨"ObjectID", 7⟩ (JValue.str "x")).1 (Or.inl rfl)).1,
   ((attribute_type_guards ⟨"ObjectName", 11⟩ (JValue.num 3)).2 rfl).1⟩

/-- The generation map selects the number pair exactly for the INT32 and
INT64 tags. -/
lemma generationMapGet_eq_numberGen (dt : Int) :
    generationMapGet dt = FilterGen.numberGen ↔
      dt = AttributeType.INT32 ∨ dt = AttributeType.INT64 := by
  simp only [generationMapGet, AttributeType.INT32, AttributeType.INT64,
    AttributeType.STRING]
  by_cases h7 : dt = 7
  · simp [h7]
  · by_cases h9 : dt = 9
    · simp [h7, h9]
    · simp [h7, h9]

/-- C9: `within` on a STRING-tagged attribute always raises — the string
operator enumeration has no `Includes` member — and whenever `within`
does return a filter the attribute is INT32- or INT64-tagged and the
filter is the set-membership wire shape. -/
theorem within_string_guard (a : Attribute) (v : JValue) :
    (a.dataType = AttributeType.STRING →
      Attribute.within a v = Except.error "AttributeError") ∧
    (∀ f, Attribute.within a v = Except.ok f →
      (a.dataType = AttributeType.INT32 ∨ a.dataType = AttributeType.INT64) ∧
      f = JValue.obj [("$type", JValue.str gridColumnFilterType),
                      ("staticAttributeName", JValue.str a.attributeUniqueName),
                      ("mode", JValue.num 0), ("values", v)]) := by
  constructor
  · intro h
    simp [Attribute.within, applyGen, generationMapGet, h, AttributeType.STRING,
      AttributeType.INT32, AttributeType.INT64, stringOperatorMember]
  · intro f hf
    unfold Attribute.within applyGen at hf
    cases hg : generationMapGet a.dataType with
    | stringGen =>
      rw [hg] at hf
      simp [stringOperatorMember] at hf
    | numberGen =>
      rw [hg] at hf
      simp only [numberOperatorMember, Except.ok.injEq] at hf
      refine ⟨(generationMapGet_eq_numberGen a.dataType).mp hg, ?_⟩
      rw [← hf]
      simp [generate_number_filter, NumberOperator.value]

/-- C9 witness: `within` raises on a concrete STRING attribute and
produces the membership shape on a concrete INT32 attribute. -/
theorem within_string_guard_witness :
    Attribute.within ⟨"ObjectName", 11⟩ (JValue.arr [JValue.num 1]) =
      Except.error "AttributeError" ∧
    (Attribute.within ⟨"LabelID", 7⟩ (JValue.arr [JValue.num 1]) =
        Except.ok (JValue.obj [("$type", JValue.str gridColumnFilterType),
          ("staticAttributeName", JValue.str "LabelID"),
          ("mode", JValue.num 0), ("values", JValue.arr [JValue.num 1])])) :=
  ⟨(within_string_guard ⟨"ObjectName", 11⟩ (JValue.arr [JValue.num 1])).1 rfl,
   by
    have h := (within_string_guard ⟨"LabelID", 7⟩ (JValue.arr [JValue.num 1])).2
      (JValue.obj [("$type", JValue.str gridColumnFilterType),
        ("staticAttributeName", JValue.str "LabelID"),
        ("mode", JValue.num 0), ("values", JValue.arr [JValue.num 1])]) rfl
    exact congrArg Except.ok h.2.symm ▸ rfl⟩

/-- C5: the produced filters are exactly the documented wire shapes:
`Includes`/`Excludes` serialize as the set-membership object with mode
flag 0/1 and a values list; every other number operator as the comparison
object with operator code and scalar value; string filters carry operator
code and operand; `and_`/`or_` serialize as a binary node whose
`left`/`right` children are the argument filters, and chained composition
nests the inner binary node as a child rather than flattening. -/
theorem filter_wire_shapes (attributeName : String) (value f1 f2 f3 : JValue)
    (nop : NumberOperator) (sop : StringOperator) :
    generate_number_filter attributeName NumberOperator.Includes value =
      JValue.obj [("$type", JValue.str gridColumnFilterType),
                  ("staticAttributeName", JValue.str attributeName),
                  ("mode", JValue.num 0), ("values", value)] ∧
    generate_number_filter attributeName NumberOperator.Excludes value =
      JValue.obj [("$type", JValue.str gridColumnFilterType),
                  ("staticAttributeName", JValue.str attributeName),
                  ("mode", JValue.num 1), ("values", value)] ∧
    (nop ≠ NumberOperator.Includes → nop ≠ NumberOperator.Excludes →
      generate_number_filter attributeName nop value =
        JValue.obj [("$type", JValue.str gridColumnComparisonFilterType),
                    ("staticAttributeName", JValue.str attributeName),
                    ("operator", JValue.num nop.value), ("value", value)]) ∧
    generate_string_filter attributeName sop value =
      JValue.obj [("$type", JValue.str stringColumnFilterType),
                  ("staticAttributeName", JValue.str attributeName),
                  ("operator", JValue.num sop.value), ("operand", value)] ∧
    and_ f1 f2 = JValue.obj [("$type", JValue.str binaryOperatorFilterType),
                             ("operator", JValue.str "AND"),
                             ("left", f1), ("right", f2)] ∧
    or_ f1 f2 = JValue.obj [("$type", JValue.str binaryOperatorFilterType),
                            ("operator", JValue.str "OR"),
                            ("left", f1), ("right", f2)] ∧
    and_ (and_ f1 f2) f3 =
      JValue.obj [("$type", JValue.str binaryOperatorFilterType),
                  ("operator", JValue.str "AND"),
                  ("left", and_ f1 f2), ("right", f3)] ∧
    or_ (or_ f1 f2) f3 =
      JValue.obj [("$type", JValue.str binaryOperatorFilterType),
                  ("operator", JValue.str "OR"),
                  ("left", or_ f1 f2), ("right", f3)] := by
  refine ⟨rfl, rfl, ?_, rfl, rfl, rfl, rfl, rfl⟩
  intro h1 h2
  cases nop with
  | Includes => exact absurd rfl h1
  | Excludes => exact absurd rfl h2
  | GreaterThan => rfl
  | GreaterThanEqualTo => rfl
  | LessThan => rfl
  | LessThanEqualTo => rfl
  | EqualTo => rfl
  | NotEqualTo => rfl

/-- C5 witness: a comparison-shaped filter for a concrete non-membership
operator. -/
theorem filter_wire_shapes_witness :
    generate_number_filter "ObjectID" NumberOperator.LessThan (JValue.num 9) =
      JValue.obj [("$type", JValue.str gridColumnComparisonFilterType),
                  ("staticAttributeName", JValue.str "ObjectID"),
                  ("operator", JValue.num 2), ("value", JValue.num 9)] :=
  (filter_wire_shapes "ObjectID" (JValue.num 9) (JValue.num 0) (JValue.num 0)
    (JValue.num 0) NumberOperator.LessThan StringOperator.EqualTo).2.2.1
    (by intro h; cases h) (by intro h; cases h)

/-- The shape of `evidence_id == self.get("evidenceId", 0)`: an equality
filter on the attribute's name over the evidence id, in the wire shape of
whichever generator the attribute's data type selects. -/
def isEvidenceEqualityFilter (attrName : String) (idv : JValue) (f : JValue) : Prop :=
  f = generate_string_filter attrName StringOperator.EqualTo idv ∨
  f = generate_number_filter attrName NumberOperator.EqualTo idv

/-- C6: every browse, iterate, search or export invoked from an
evidence-item context passes an evidence-scoped filter: the AND of the
caller's filter (when truthy) with the `EvidenceID == <this evidence's
id>` equality filter, and the bare equality filter otherwise. -/
theorem evidence_scoping (row : List (String × JValue)) (evidence_id : Attribute)
    (filter ef : JValue)
    (hef : Attribute.eqFilter evidence_id (evidenceIdOf row) = Except.ok ef) :
    isEvidenceEqualityFilter evidence_id.attributeUniqueName (evidenceIdOf row) ef ∧
    (jsonTruthy filter = true →
      EvidenceObject.browseFilter row evidence_id filter = Except.ok (and_ filter ef) ∧
      EvidenceObject.iterateFilter row evidence_id filter = Except.ok (and_ filter ef) ∧
      EvidenceObject.searchKeywordsFilter row evidence_id filter =
        Except.ok (and_ filter ef) ∧
      EvidenceObject.exportNativesFilter row evidence_id filter =
        Except.ok (and_ filter ef)) ∧
    (jsonTruthy filter = false →
      EvidenceObject.browseFilter row evidence_id filter = Except.ok ef ∧
      EvidenceObject.iterateFilter row evidence_id filter = Except.ok ef ∧
      EvidenceObject.searchKeywordsFilter row evidence_id filter = Except.ok ef ∧
      EvidenceObject.exportNativesFilter row evidence_id filter = Except.ok ef) := by
  refine ⟨?_, ?_, ?_⟩
  · unfold Attribute.eqFilter applyGen at hef
    cases hg : generationMapGet evidence_id.dataType with
    | stringGen =>
      rw [hg] at hef
      simp only [stringOperatorMember, Except.ok.injEq] at hef
      exact Or.inl hef.symm
    | numberGen =>
      rw [hg] at hef
      simp only [numberOperatorMember, Except.ok.injEq] at hef
      exact Or.inr hef.symm
  · intro h
    refine ⟨?_, ?_, ?_, ?_⟩ <;>
      simp [EvidenceObject.browseFilter, EvidenceObject.iterateFilter,
        EvidenceObject.searchKeywordsFilter, EvidenceObject.exportNativesFilter,
        h, hef, Except.map]
  · intro h
    refine ⟨?_, ?_, ?_, ?_⟩ <;>
      simp [EvidenceObject.browseFilter, EvidenceObject.iterateFilter,
        EvidenceObject.searchKeywordsFilter, EvidenceObject.exportNativesFilter,
        h, hef]

/-- C6 witness: a concrete numeric `EvidenceID` attribute, evidence row
and truthy caller filter produce the AND of the caller's filter with the
`EvidenceID == 5` equality filter; with a falsy (empty) caller filter the
bare equality filter is transmitted. -/
theorem evidence_scoping_witness :
    EvidenceObject.browseFilter [("evidenceId", JValue.num 5)] ⟨"EvidenceID", 7⟩
        (generate_string_filter "ObjectName" StringOperator.Contains (JValue.str "a")) =
      Except.ok (and_
        (generate_string_filter "ObjectName" StringOperator.Contains (JValue.str "a"))
        (generate_number_filter "EvidenceID" NumberOperator.EqualTo (JValue.num 5))) ∧
    EvidenceObject.iterateFilter [("evidenceId", JValue.num 5)] ⟨"EvidenceID", 7⟩
        (JValue.obj []) =
      Except.ok (generate_number_filter "EvidenceID" NumberOperator.EqualTo
        (JValue.num 5)) :=
  ⟨((evidence_scoping [("evidenceId", JValue.num 5)] ⟨"EvidenceID", 7⟩
      (generate_string_filter "ObjectName" StringOperator.Contains (JValue.str "a"))
      (generate_number_filter "EvidenceID" NumberOperator.EqualTo (JValue.num 5))
      rfl).2.1 rfl).1,
   ((evidence_scoping [("evidenceId", JValue.num 5)] ⟨"EvidenceID", 7⟩
      (JValue.obj [])
      (generate_number_filter "EvidenceID" NumberOperator.EqualTo (JValue.num 5))
      rfl).2.2 rfl).2.1⟩

/-- The page numbers the `_iterate` while-loop fetches starting after
`pagenumber = p` with `remaining` passes left: `p+1, p+2, ...`. -/
lemma iterLoopSim_map_fst {α : Type} (data : List α) (P : Nat) :
    ∀ (r p : Nat), (iterLoopSim data P p r).map Prod.fst = List.range' (p + 1) r := by
  intro r
  induction r with
  | zero => intro p; simp [iterLoopSim]
  | succ n ih =>
    intro p
    simp [iterLoopSim, ih (p + 1), List.range'_succ]

/-- The objects the `_iterate` while-loop yields: the next `remaining * P`
objects of the dataset after the first `p` pages. -/
lemma iterLoopSim_flatten {α : Type} (data : List α) (P : Nat) :
    ∀ (r p : Nat),
      ((iterLoopSim data P p r).map Prod.snd).flatten =
        (data.drop (p * P)).take (r * P) := by
  intro r
  induction r with
  | zero => intro p; simp [iterLoopSim]
  | succ n ih =>
    intro p
    simp only [iterLoopSim, List.map_cons, List.flatten_cons, ih (p + 1)]
    have hd : (p + 1) * P = p * P + P := by ring
    rw [hd, ← List.drop_drop]
    have ha2 : (n + 1) * P = P + n * P := by ring
    rw [ha2, List.take_add]
    congr 1

/-- Every natural is below its successor multiple: the dataset always fits
in `total_pages = floor(N / P) + 1` pages of size `P > 0`. -/
lemma length_lt_total_pages_mul {N P : Nat} (hP : 0 < P) : N < (N / P + 1) * P := by
  have h1 : N / P * P + N % P = N := Nat.div_add_mod' N P
  have h2 := Nat.mod_lt N hP
  have h3 : (N / P + 1) * P = N / P * P + P := by ring
  omega

/-- C1 (amended): against the simulated page server, for every dataset
and page size `P > 0`, `_iterate` yields exactly the dataset, in page
order, and issues exactly `floor(N / P) + 1` page fetches, namely pages
`1, 2, ..., floor(N / P) + 1` in ascending order; for `N = 0` it yields
nothing and fetches exactly page 1 once; no fetched page exceeds the
computed total page count `floor(N / P) + 1`. (The claim's fetch count
`ceil(N / P)` fails whenever `P` divides `N`, see the counterexample.) -/
theorem iterate_pagination_behaviour {α : Type} (data : List α) (P : Nat)
    (hP : 0 < P) :
    iterateSimYields data P = data ∧
    iterateSimRequests data P = List.range' 1 (data.length / P + 1) ∧
    (iterateSimRequests data P).length = data.length / P + 1 ∧
    (data = [] → iterateSimRequests data P = [1]) ∧
    (∀ k ∈ iterateSimRequests data P, 1 ≤ k ∧ k ≤ data.length / P + 1) := by
  have hreq : iterateSimRequests data P = List.range' 1 (data.length / P + 1) := by
    unfold iterateSimRequests iterateSim
    simp only [List.map_cons, iterLoopSim_map_fst]
    rw [List.range'_succ]
    simp
  refine ⟨?_, hreq, ?_, ?_, ?_⟩
  · unfold iterateSimYields iterateSim
    simp only [List.map_cons, List.flatten_cons, iterLoopSim_flatten]
    have h1 : pageEntities data P 1 = data.take P := by
      simp [pageEntities]
    rw [h1, Nat.add_sub_cancel, Nat.one_mul, ← List.take_add]
    apply List.take_of_length_le
    have := length_lt_total_pages_mul (N := data.length) hP
    have harith : (data.length / P + 1) * P = P + data.length / P * P := by ring
    omega
  · rw [hreq, List.length_range']
  · intro hdata
    rw [hreq, hdata]
    simp
  · intro k hk
    rw [hreq] at hk
    have := List.mem_range'_1.mp hk
    omega

/-- C1 witness: three objects at page size two — yields all three in
order, fetching pages 1 and 2 (`floor(3/2) + 1 = 2`). -/
theorem iterate_pagination_behaviour_witness :
    iterateSimYields [10, 20, 30] 2 = [10, 20, 30] ∧
    iterateSimRequests [10, 20, 30] 2 = [1, 2] :=
  ⟨(iterate_pagination_behaviour [10, 20, 30] 2 (by decide)).1,
   ((iterate_pagination_behaviour [10, 20, 30] 2 (by decide)).2.1).trans rfl⟩

/-- C1 counterexample: one object at page size one — `_iterate` issues 2
page fetches while `ceil(1/1) = 1`, refuting the claimed fetch count
`ceil(N/P)` (the code uses `floor(N/P) + 1`, which differs exactly when
`P` divides `N > 0`). -/
theorem iterate_fetch_count_cx :
    (iterateSimRequests [(42 : Int)] 1).length = 2 ∧
    (([(42 : Int)] : List Int).length + 1 - 1) / 1 = 1 ∧
    (iterateSimRequests [(42 : Int)] 1).length ≠
      (([(42 : Int)] : List Int).length + 1 - 1) / 1 := by
  refine ⟨rfl, rfl, ?_⟩
  decide

/-- C2: the search-and-wait workflow polls (refreshing) exactly while the
job state is `Submitted` or `InProgress` and stops at the first terminal
state; if that state is `Failed` or `CompletedWithErrors` it ends with an
empty result and no exception; otherwise it delegates to the paginated
iterator with the `LabelID`-within-assigned-ids filter, conjoined by AND
with the caller's filter when one was supplied. -/
theorem search_wait_policy (cache : Bool) (keywords : List String)
    (labels : Option (List String)) (filter : JValue)
    (caseLabels : List (String × Int)) (newLabelId : String → Int)
    (labelidAttr : Attribute) (jobInit : JobState) (jobUpdates : List JobState)
    (t : JobState)
    (hcheck : labelsLengthMismatch keywords labels = false)
    (hterm : (pollJob jobInit jobUpdates).2 = some t) :
    (∀ s u rest, JobState.nonTerminal s = true →
      pollJob s (u :: rest) =
        (NetEvent.jobStatusFetch :: (pollJob u rest).1, (pollJob u rest).2)) ∧
    (∀ s, JobState.nonTerminal s = false → ∀ us, pollJob s us = ([], some s)) ∧
    (t = JobState.Failed ∨ t = JobState.CompletedWithErrors →
      (searchKeywordsRun cache keywords labels filter caseLabels newLabelId
        labelidAttr jobInit jobUpdates).2 = Except.ok SearchOutcome.emptyResult) ∧
    (¬(t = JobState.Failed ∨ t = JobState.CompletedWithErrors) →
      ∀ lf, Attribute.within labelidAttr
          (JValue.arr ((resolveLabelIds newLabelId caseLabels
            (searchLabels keywords labels)).2.map JValue.num)) = Except.ok lf →
        (jsonTruthy filter = true →
          (searchKeywordsRun cache keywords labels filter caseLabels newLabelId
            labelidAttr jobInit jobUpdates).2 =
            Except.ok (SearchOutcome.iterateWith (and_ lf filter))) ∧
        (jsonTruthy filter = false →
          (searchKeywordsRun cache keywords labels filter caseLabels newLabelId
            labelidAttr jobInit jobUpdates).2 =
            Except.ok (SearchOutcome.iterateWith lf))) := by
  refine ⟨?_, ?_, ?_, ?_⟩
  · intro s u rest h
    simp [pollJob, h]
  · intro s h us
    cases us <;> simp [pollJob, h]
  · intro ht
    rcases ht with rfl | rfl <;>
      simp [searchKeywordsRun, hcheck, hterm]
  · intro ht lf hlf
    constructor
    · intro hft
      simp [searchKeywordsRun, hcheck, hterm, ht, hlf, hft]
    · intro hff
      simp [searchKeywordsRun, hcheck, hterm, ht, hlf, hff]

/-- C2 witness: a `Submitted → Completed` job with auto-generated label
names and no caller filter ends by delegating to the iterator with the
bare `LabelID`-within filter. -/
theorem search_wait_policy_witness :
    (searchKeywordsRun true ["k"] none (JValue.obj []) [("API-Search k", 3)]
      (fun _ => 7) ⟨"LabelID", 7⟩ JobState.Submitted [JobState.Completed]).2 =
      Except.ok (SearchOutcome.iterateWith
        (generate_number_filter "LabelID" NumberOperator.Includes
          (JValue.arr [JValue.num 3]))) :=
  ((search_wait_policy true ["k"] none (JValue.obj []) [("API-Search k", 3)]
      (fun _ => 7) ⟨"LabelID", 7⟩ JobState.Submitted [JobState.Completed]
      JobState.Completed rfl rfl).2.2.2 (by decide)
    (generate_number_filter "LabelID" NumberOperator.Includes
      (JValue.arr [JValue.num 3])) rfl).2 rfl

/-- C4 (amended): a keyword/label length mismatch raises `ValueError`
before the label-creation loop, the search-job submission and any
job-status fetch; however the `case.labels` access that precedes the
check issues one label-list fetch when the label cache is cold, so the
error is preceded by no network call only when the cache is already
populated. -/
theorem search_keywords_length_check (cache : Bool) (keywords : List String)
    (labels : Option (List String)) (filter : JValue)
    (caseLabels : List (String × Int)) (newLabelId : String → Int)
    (labelidAttr : Attribute) (jobInit : JobState) (jobUpdates : List JobState)
    (hmis : labelsLengthMismatch keywords labels = true) :
    (searchKeywordsRun cache keywords labels filter caseLabels newLabelId
      labelidAttr jobInit jobUpdates).2 =
      Except.error "ValueError: Keywords and Labels list must be of same length." ∧
    (searchKeywordsRun cache keywords labels filter caseLabels newLabelId
      labelidAttr jobInit jobUpdates).1 = caseLabelsAccess cache ∧
    NetEvent.searchSubmit ∉ (searchKeywordsRun cache keywords labels filter
      caseLabels newLabelId labelidAttr jobInit jobUpdates).1 ∧
    NetEvent.jobStatusFetch ∉ (searchKeywordsRun cache keywords labels filter
      caseLabels newLabelId labelidAttr jobInit jobUpdates).1 ∧
    (∀ n, NetEvent.labelCreate n ∉ (searchKeywordsRun cache keywords labels filter
      caseLabels newLabelId labelidAttr jobInit jobUpdates).1) ∧
    (cache = true → (searchKeywordsRun cache keywords labels filter caseLabels
      newLabelId labelidAttr jobInit jobUpdates).1 = []) ∧
    (cache = false → (searchKeywordsRun cache keywords labels filter caseLabels
      newLabelId labelidAttr jobInit jobUpdates).1 = [NetEvent.labelListFetch]) := by
  cases cache <;>
    simp [searchKeywordsRun, hmis, caseLabelsAccess]

/-- C4 witness: a concrete mismatch (two keywords, one label) with a warm
label cache raises the `ValueError` with no preceding network traffic. -/
theorem search_keywords_length_check_witness :
    (searchKeywordsRun true ["x", "y"] (some ["a"]) (JValue.obj []) []
      (fun _ => 0) ⟨"LabelID", 7⟩ JobState.Submitted []).2 =
      Except.error "ValueError: Keywords and Labels list must be of same length." ∧
    (searchKeywordsRun true ["x", "y"] (some ["a"]) (JValue.obj []) []
      (fun _ => 0) ⟨"LabelID", 7⟩ JobState.Submitted []).1 = [] :=
  ⟨(search_keywords_length_check true ["x", "y"] (some ["a"]) (JValue.obj []) []
      (fun _ => 0) ⟨"LabelID", 7⟩ JobState.Submitted [] rfl).1,
   (search_keywords_length_check true ["x", "y"] (some ["a"]) (JValue.obj []) []
      (fun _ => 0) ⟨"LabelID", 7⟩ JobState.Submitted [] rfl).2.2.2.2.2.1 rfl⟩

/-- C4 counterexample: with a cold label cache the same mismatched call
issues a label-list network fetch before raising the `ValueError`,
refuting "before any network call is issued (in particular, before any
label-list fetch)". -/
theorem search_keywords_prefetch_cx :
    (searchKeywordsRun false ["x", "y"] (some ["a"]) (JValue.obj []) []
      (fun _ => 0) ⟨"LabelID", 7⟩ JobState.Submitted []).1 =
      [NetEvent.labelListFetch] ∧
    (searchKeywordsRun false ["x", "y"] (some ["a"]) (JValue.obj []) []
      (fun _ => 0) ⟨"LabelID", 7⟩ JobState.Submitted []).2 =
      Except.error "ValueError: Keywords and Labels list must be of same length." :=
  ⟨rfl, rfl⟩

end FTK
